import Mathlib

/-!
Verification of the MobileDroid agent execution engine.

The definitions below are a shallow embedding of the Python sources:
  - `src/lib/agent/src/agent.py` (task loop, stuck detection, recovery planning,
    LLM-response parsing),
  - `src/packages/api/src/agent/actions.py` (the `Action` model and the
    `ActionExecutor` coordinate/tap logic),
  - `src/packages/api/src/services/integration_service.py` (the integration
    fallback-chain resolver).

Python floats are modelled as rationals, Python `dict`s produced by
`json.loads` as insertion-ordered association lists with in-place update on
duplicate keys, and raised exceptions as `Except.error`.  External I/O (the
device, the LLM provider) is supplied by an explicit per-step environment.
-/

namespace MobileDroid

/-- JSON values, as produced by `json.loads`.  Objects keep insertion order;
duplicate keys are collapsed at parse time exactly as Python `dict` building
does (the later value replaces the earlier one, keeping its position). -/
inductive JValue where
  | jnull : JValue
  | jbool (b : Bool) : JValue
  | jnum (q : ℚ) : JValue
  | jstr (s : String) : JValue
  | jarr (xs : List JValue) : JValue
  | jobj (kvs : List (String × JValue)) : JValue

/-- Python dicts from `json.loads`: ordered key/value lists. -/
abbrev JObj := List (String × JValue)

/-- Python `dict.__setitem__`: replace the value of an existing key in place,
otherwise append the binding at the end. -/
def dictSet : JObj → String → JValue → JObj
  | [], k, v => [(k, v)]
  | (k0, v0) :: rest, k, v =>
    if k0 = k then (k0, v) :: rest else (k0, v0) :: dictSet rest k v

/-- Lookup of a key in a dict (`d[k]` / `d.get(k)` without the default). -/
def lookupJ (d : JObj) (k : String) : Option JValue :=
  match d with
  | [] => none
  | (k0, v0) :: rest => if k0 = k then some v0 else lookupJ rest k

/-- Python `dict.get(k, default)`. -/
def jget (d : JObj) (k : String) (dflt : JValue) : JValue :=
  match lookupJ d k with
  | some v => v
  | none => dflt

/- Characters that the scanners below need. -/

def quoteC : Char := Char.ofNat 34

def backslashC : Char := Char.ofNat 92

def lbraceC : Char := Char.ofNat 123

def rbraceC : Char := Char.ofNat 125

def lbrackC : Char := Char.ofNat 91

def rbrackC : Char := Char.ofNat 93

/-- Whitespace as skipped by the JSON grammar and by Python `str.strip()`. -/
def isWs (c : Char) : Bool :=
  c = ' ' || c = Char.ofNat 9 || c = Char.ofNat 10 || c = Char.ofNat 13

def skipWs : List Char → List Char
  | [] => []
  | c :: cs => if isWs c then skipWs cs else c :: cs

def digitVal (c : Char) : Nat := c.toNat - 48

def isHexDig (c : Char) : Bool :=
  c.isDigit || ('a' ≤ c && c ≤ 'f') || ('A' ≤ c && c ≤ 'F')

/-- Consume a run of decimal digits, returning value, digit count, and rest. -/
def takeDigits : List Char → Nat → Nat → Nat × Nat × List Char
  | [], acc, n => (acc, n, [])
  | c :: cs, acc, n =>
    if c.isDigit then takeDigits cs (acc * 10 + digitVal c) (n + 1)
    else (acc, n, c :: cs)

/-- Parse a JSON number (sign, integer part, optional fraction and exponent). -/
def parseNum (cs : List Char) : Except String (ℚ × List Char) :=
  let (neg, cs1) :=
    match cs with
    | c :: rest => if c = '-' then (true, rest) else (false, cs)
    | [] => (false, cs)
  let (ip, ic, cs2) := takeDigits cs1 0 0
  if ic = 0 then .error ("Expecting value") else
  let (fq, cs3) :=
    match cs2 with
    | c :: rest =>
      if c = '.' then
        let (fp, fc, rest2) := takeDigits rest 0 0
        (((fp : ℚ) / ((10 : ℚ) ^ fc), rest2))
      else ((0 : ℚ), cs2)
    | [] => ((0 : ℚ), cs2)
  let base : ℚ := (ip : ℚ) + fq
  let (scaled, cs4) :=
    match cs3 with
    | c :: rest =>
      if c = 'e' || c = 'E' then
        let (eneg, rest1) :=
          match rest with
          | d :: r2 => if d = '-' then (true, r2) else if d = '+' then (false, r2) else (false, rest)
          | [] => (false, rest)
        let (ev, ec, rest2) := takeDigits rest1 0 0
        if ec = 0 then (base, cs3)
        else if eneg then (base / ((10 : ℚ) ^ ev), rest2)
        else (base * ((10 : ℚ) ^ ev), rest2)
      else (base, cs3)
    | [] => (base, cs3)
  .ok ((if neg then -scaled else scaled), cs4)

/-- Decode one escape sequence after a backslash. -/
def decodeEscape : List Char → Except String (Char × List Char)
  | [] => .error ("Unterminated string")
  | e :: rest =>
    if e = quoteC then .ok (quoteC, rest)
    else if e = backslashC then .ok (backslashC, rest)
    else if e = '/' then .ok ('/', rest)
    else if e = 'b' then .ok (Char.ofNat 8, rest)
    else if e = 'f' then .ok (Char.ofNat 12, rest)
    else if e = 'n' then .ok (Char.ofNat 10, rest)
    else if e = 'r' then .ok (Char.ofNat 13, rest)
    else if e = 't' then .ok (Char.ofNat 9, rest)
    else if e = 'u' then
      match rest with
      | h1 :: h2 :: h3 :: h4 :: rest2 =>
        if isHexDig h1 && isHexDig h2 && isHexDig h3 && isHexDig h4 then
          let hv (c : Char) : Nat :=
            if c.isDigit then digitVal c
            else if c ≤ 'F' then c.toNat - 55 else c.toNat - 87
          .ok (Char.ofNat (((hv h1 * 16 + hv h2) * 16 + hv h3) * 16 + hv h4), rest2)
        else .error ("Invalid unicode escape")
      | _ => .error ("Invalid unicode escape")
    else .error ("Invalid escape")

/-- Parse the body of a JSON string literal (the opening quote is consumed). -/
def parseStrBody (fuel : Nat) (cs : List Char) : Except String (List Char × List Char) :=
  match fuel with
  | 0 => .error ("Unterminated string")
  | fuel + 1 =>
    match cs with
    | [] => .error ("Unterminated string")
    | c :: rest =>
      if c = quoteC then .ok ([], rest)
      else if c = backslashC then
        match decodeEscape rest with
        | .ok (d, rest2) =>
          match parseStrBody fuel rest2 with
          | .ok (body, rest3) => .ok (d :: body, rest3)
          | .error e => .error e
        | .error e => .error e
      else
        match parseStrBody fuel rest with
        | .ok (body, rest2) => .ok (c :: body, rest2)
        | .error e => .error e

mutual

/-- Parse one JSON value.  `fuel` bounds the recursion depth; `jsonDecode`
supplies enough for any input of the given length. -/
def parseValue (fuel : Nat) (cs : List Char) : Except String (JValue × List Char) :=
  match fuel with
  | 0 => .error ("Expecting value")
  | fuel + 1 =>
    match cs with
    | [] => .error ("Expecting value")
    | c :: rest =>
      if c = lbraceC then parseMembers fuel (skipWs rest) [] true
      else if c = lbrackC then parseElements fuel (skipWs rest) [] true
      else if c = quoteC then
        match parseStrBody (rest.length + 1) rest with
        | .ok (body, rest2) => .ok (.jstr (String.mk body), rest2)
        | .error e => .error e
      else if c = 't' then
        match rest with
        | 'r' :: 'u' :: 'e' :: rest2 => .ok (.jbool true, rest2)
        | _ => .error ("Expecting value")
      else if c = 'f' then
        match rest with
        | 'a' :: 'l' :: 's' :: 'e' :: rest2 => .ok (.jbool false, rest2)
        | _ => .error ("Expecting value")
      else if c = 'n' then
        match rest with
        | 'u' :: 'l' :: 'l' :: rest2 => .ok (.jnull, rest2)
        | _ => .error ("Expecting value")
      else if c = '-' || c.isDigit then
        match parseNum (c :: rest) with
        | .ok (q, rest2) => .ok (.jnum q, rest2)
        | .error e => .error e
      else .error ("Expecting value")

/-- Parse the members of an object after the opening brace.  `first` is true
before the first member (so a closing brace yields the empty object). -/
def parseMembers (fuel : Nat) (cs : List Char) (acc : JObj) (first : Bool) :
    Except String (JValue × List Char) :=
  match fuel with
  | 0 => .error ("Expecting value")
  | fuel + 1 =>
    match cs with
    | [] => .error ("Unterminated object")
    | c :: rest =>
      if c = rbraceC && first then .ok (.jobj acc, rest)
      else if c = quoteC then
        match parseStrBody (rest.length + 1) rest with
        | .error e => .error e
        | .ok (keyChars, rest2) =>
          match skipWs rest2 with
          | ':' :: rest3 =>
            match parseValue fuel (skipWs rest3) with
            | .error e => .error e
            | .ok (v, rest4) =>
              let acc2 := dictSet acc (String.mk keyChars) v
              match skipWs rest4 with
              | ',' :: rest5 => parseMembers fuel (skipWs rest5) acc2 false
              | d :: rest5 =>
                if d = rbraceC then .ok (.jobj acc2, rest5)
                else .error ("Expecting delimiter")
              | [] => .error ("Unterminated object")
          | _ => .error ("Expecting colon")
      else .error ("Expecting property name")

/-- Parse the elements of an array after the opening bracket. -/
def parseElements (fuel : Nat) (cs : List Char) (acc : List JValue) (first : Bool) :
    Except String (JValue × List Char) :=
  match fuel with
  | 0 => .error ("Expecting value")
  | fuel + 1 =>
    match cs with
    | [] => .error ("Unterminated array")
    | c :: rest =>
      if c = rbrackC && first then .ok (.jarr acc.reverse, rest)
      else
        match parseValue fuel (c :: rest) with
        | .error e => .error e
        | .ok (v, rest2) =>
          match skipWs rest2 with
          | ',' :: rest3 => parseElements fuel (skipWs rest3) (v :: acc) false
          | d :: rest3 =>
            if d = rbrackC then .ok (.jarr (v :: acc).reverse, rest3)
            else .error ("Expecting delimiter")
          | [] => .error ("Unterminated array")

end

/-- Model of `json.loads`: decode a complete JSON document, rejecting
trailing garbage.  The error strings are simplified diagnostics. -/
def jsonDecode (s : String) : Except String JValue :=
  match parseValue (s.length + 1) (skipWs s.toList) with
  | .error e => .error e
  | .ok (v, rest) =>
    if (skipWs rest).isEmpty then .ok v else .error ("Extra data")

/- ## String scanning helpers (Python `str.find` / `str.rfind` / slicing) -/

/-- Is `sub` an initial segment of `l`? -/
def listLeads : List Char → List Char → Bool
  | [], _ => true
  | _ :: _, [] => false
  | s :: ss, c :: cs => s = c && listLeads ss cs

/-- Python `text.find(sub)`: index of the first occurrence, if any. -/
def listFind (l sub : List Char) : Option Nat :=
  match l with
  | [] => if listLeads sub [] then some 0 else none
  | c :: cs =>
    if listLeads sub (c :: cs) then some 0
    else (listFind cs sub).map (· + 1)

/-- Python `text.find(sub, start)`: first occurrence at index `start` or later. -/
def listFindFrom (l sub : List Char) (start : Nat) : Option Nat :=
  (listFind (l.drop start) sub).map (· + start)

/-- Python `text.rfind(c)` for a single character: index of the last occurrence. -/
def listRFind (l : List Char) (c : Char) : Option Nat :=
  match l with
  | [] => none
  | d :: ds =>
    match listRFind ds c with
    | some i => some (i + 1)
    | none => if d = c then some 0 else none

/-- Python slice `text[a:b]`. -/
def listSlice (l : List Char) (a b : Nat) : List Char :=
  (l.drop a).take (b - a)

/-- Python `str.strip()`. -/
def listStrip (l : List Char) : List Char :=
  ((l.dropWhile isWs).reverse.dropWhile isWs).reverse

/- ## `MobileDroidAgent._parse_action_json` (src/lib/agent/src/agent.py) -/

/-- The markdown-fence extraction step of `_parse_action_json`: if a
` ```json ` fence is present take its interior, else if a plain ` ``` ` fence
is present take its interior, stripping whitespace. -/
def extractFenced (cs : List Char) : List Char :=
  let fj := ("```json").toList
  let ff := ("```").toList
  match listFind cs fj with
  | some i =>
    let start := i + 7
    match listFindFrom cs ff start with
    | some e => if start < e then listStrip (listSlice cs start e) else cs
    | none => cs
  | none =>
    match listFind cs ff with
    | some i =>
      let start := i + 3
      match listFindFrom cs ff start with
      | some e => if start < e then listStrip (listSlice cs start e) else cs
      | none => cs
    | none => cs

/-- The brace-slicing step of `_parse_action_json`: slice from the first
opening brace to one past the last closing brace, when that span is nonempty. -/
def extractBraces (cs : List Char) : List Char :=
  let jsonStart := listFind cs [lbraceC]
  let jsonEnd :=
    match listRFind cs rbraceC with
    | some r => r + 1
    | none => 0
  match jsonStart with
  | some a => if a < jsonEnd then listSlice cs a jsonEnd else cs
  | none => cs

/-- The candidate JSON text that `_parse_action_json` hands to `json.loads`:
strip, then fence extraction, then brace slicing. -/
def extractCandidate (text : String) : String :=
  String.mk (extractBraces (extractFenced (text.trim.toList)))

/-- Model of `MobileDroidAgent._parse_action_json`: decode the candidate text; on a
decode failure return the synthetic `fail` payload carrying the diagnostic. -/
def parseActionJson (text : String) : JValue :=
  match jsonDecode (extractCandidate text) with
  | .ok v => v
  | .error e =>
    .jobj [("action", .jstr ("fail")),
           ("reason", .jstr ("Failed to parse LLM response: " ++ e))]

/- ## The Action model (src/packages/api/src/agent/actions.py) -/

/-- Model of `ActionType`: the available action kinds and their string values. -/
inductive ActionType where
  | tap
  | doubleTap
  | swipe
  | typeText
  | back
  | home
  | enter
  | wait
  | done
  | fail
deriving DecidableEq

/-- The `ActionType(value)` enum constructor: string value to member, `none`
where Python raises `ValueError`. -/
def ActionType.ofString (s : String) : Option ActionType :=
  if s = "tap" then some .tap
  else if s = "double_tap" then some .doubleTap
  else if s = "swipe" then some .swipe
  else if s = "type" then some .typeText
  else if s = "back" then some .back
  else if s = "home" then some .home
  else if s = "enter" then some .enter
  else if s = "wait" then some .wait
  else if s = "done" then some .done
  else if s = "fail" then some .fail
  else none

/-- An action to execute: kind, parameter dict, and the model reasoning
(kept as a raw JSON value, as the Python field is untyped). -/
structure Action where
  type : ActionType
  params : JObj
  reasoning : JValue

/-- Model of `Action.from_dict`.  Python raises (modelled as `Except.error`) when the
payload is not a dict (`AttributeError` on `.get`), when the `action` value is
not a string (`AttributeError` on `.lower`), and when the lowered kind string
is not an `ActionType` member (`ValueError`). -/
def Action.from_dict (data : JValue) : Except String Action :=
  match data with
  | .jobj d =>
    match jget d ("action") (.jstr ("")) with
    | .jstr s0 =>
      let k := s0.toLower
      match ActionType.ofString k with
      | none => .error (k ++ " is not a valid ActionType")
      | some ty =>
        let reasoning := jget d ("reasoning") (.jstr (""))
        let params : JObj :=
          match ty with
          | .tap =>
            [("x", jget d ("x") (.jnum 0)),
             ("y", jget d ("y") (.jnum 0)),
             ("duration", jget d ("duration") .jnull),
             ("post_delay", jget d ("post_delay") (.jnum 300))]
          | .doubleTap =>
            [("x", jget d ("x") (.jnum 0)),
             ("y", jget d ("y") (.jnum 0)),
             ("delay", jget d ("delay") (.jnum 300)),
             ("post_delay", jget d ("post_delay") (.jnum 800))]
          | .swipe =>
            [("x1", jget d ("x1") (.jnum 0)),
             ("y1", jget d ("y1") (.jnum 0)),
             ("x2", jget d ("x2") (.jnum 0)),
             ("y2", jget d ("y2") (.jnum 0)),
             ("duration", jget d ("duration") (.jnum 300))]
          | .typeText => [("text", jget d ("text") (.jstr ("")))]
          | .wait => [("duration", jget d ("duration") (.jnum 1000))]
          | .done => [("result", jget d ("result") (.jstr ("")))]
          | .fail => [("reason", jget d ("reason") (.jstr ("")))]
          | _ => []
        .ok { type := ty, params := params, reasoning := reasoning }
    | .jnull => .error ("AttributeError: NoneType object has no attribute lower")
    | _ => .error ("AttributeError: object has no attribute lower")
  | _ => .error ("AttributeError: object has no attribute get")

/- ## ActionExecutor coordinate handling (src/packages/api/src/agent/actions.py) -/

/-- Python `max(0.0, min(1.0, q))`. -/
def clamp01 (q : Rat) : Rat := max 0 (min 1 q)

/-- Python `int()` on a float: truncation toward zero. -/
def pyInt (q : Rat) : Int := if 0 <= q then Int.floor q else Int.ceil q

/-- Model of `ActionExecutor._to_pixels`: clamp the normalized coordinates into
`[0.0, 1.0]` and scale by the screen size. -/
def toPixels (w h : Nat) (xPercent yPercent : Rat) : Int × Int :=
  let xClamped := clamp01 xPercent
  let yClamped := clamp01 yPercent
  (pyInt (xClamped * (w : Rat)), pyInt (yClamped * (h : Rat)))

/-- The out-of-range test guarding the `logger.warning` call in `_to_pixels`,
evaluated before clamping. -/
def coordWarn (xPercent yPercent : Rat) : Bool :=
  decide (1 < xPercent) || decide (1 < yPercent) ||
    decide (xPercent < 0) || decide (yPercent < 0)

/-- Python `float()` applied to a JSON value (numeric strings are parsed with
the same number grammar as the JSON decoder). -/
def pyFloat : JValue → Except String Rat
  | .jnum q => .ok q
  | .jbool b => .ok (if b then 1 else 0)
  | .jstr s =>
    match parseNum (listStrip s.toList) with
    | .ok (v, rest) =>
      if rest.isEmpty then .ok v else .error ("could not convert string to float")
    | .error _ => .error ("could not convert string to float")
  | .jnull => .error ("TypeError: float of NoneType")
  | _ => .error ("TypeError: float of non-scalar")

/-- Python truthiness of a JSON value. -/
def pyTruthy : JValue → Bool
  | .jnull => false
  | .jbool b => b
  | .jnum q => decide (q ≠ 0)
  | .jstr s => decide (s ≠ "")
  | .jarr xs => !xs.isEmpty
  | .jobj kvs => !kvs.isEmpty

/-- Python `v > c` for a JSON value against a number (`TypeError` on
non-numeric operands, as in CPython). -/
def pyGtNum : JValue → Rat → Except String Bool
  | .jnum q, c => .ok (decide (c < q))
  | .jbool b, c => .ok (decide (c < (if b then (1 : Rat) else 0)))
  | _, _ => .error ("TypeError: unorderable types")

/-- The outcome of `ActionExecutor._tap` (pixel coordinates and whether the
long-press path was taken; the shell command and sleeps are external I/O). -/
structure TapResult where
  x : Int
  y : Int
  xPercent : Rat
  yPercent : Rat
  kind : String
  duration : JValue
  postDelay : JValue

/-- Model of `ActionExecutor._tap`: convert coordinates, then long-press when the
`duration` parameter is truthy and greater than 500 ms, else a regular tap.
Missing `x`/`y` raise `KeyError`; non-numeric values raise in `float()` or in
the comparison. -/
def tapRun (w h : Nat) (params : JObj) : Except String TapResult :=
  match lookupJ params ("x"), lookupJ params ("y") with
  | none, _ => .error ("KeyError: x")
  | some _, none => .error ("KeyError: y")
  | some xv, some yv =>
    match pyFloat xv with
    | .error e => .error e
    | .ok xPercent =>
      match pyFloat yv with
      | .error e => .error e
      | .ok yPercent =>
        let p := toPixels w h xPercent yPercent
        let duration := jget params ("duration") .jnull
        let postDelay := jget params ("post_delay") (.jnum 300)
        match (if pyTruthy duration then pyGtNum duration 500 else Except.ok false) with
        | .error e => .error e
        | .ok long =>
          .ok { x := p.1, y := p.2, xPercent := xPercent, yPercent := yPercent,
                kind := (if long then ("long_press") else ("tap")),
                duration := duration, postDelay := postDelay }

/-- The pixel outcome of `ActionExecutor._swipe`. -/
structure SwipeResult where
  x1 : Int
  y1 : Int
  x2 : Int
  y2 : Int

/-- Fetch a required parameter and convert it with `float()`. -/
def floatParam (params : JObj) (k : String) : Except String Rat :=
  match lookupJ params k with
  | some v => pyFloat v
  | none => .error ("KeyError: " ++ k)

/-- Model of `ActionExecutor._swipe`: convert both endpoint coordinates through
`_to_pixels`. -/
def swipeRun (w h : Nat) (params : JObj) : Except String SwipeResult :=
  match floatParam params ("x1") with
  | .error e => .error e
  | .ok x1p =>
    match floatParam params ("y1") with
    | .error e => .error e
    | .ok y1p =>
      match floatParam params ("x2") with
      | .error e => .error e
      | .ok x2p =>
        match floatParam params ("y2") with
        | .error e => .error e
        | .ok y2p =>
          let p1 := toPixels w h x1p y1p
          let p2 := toPixels w h x2p y2p
          .ok { x1 := p1.1, y1 := p1.2, x2 := p2.1, y2 := p2.2 }

/- ## Agent configuration and stuck detection (src/lib/agent/src/agent.py) -/

/-- Model of `AgentConfig` with its source defaults. -/
structure AgentConfig where
  maxSteps : Nat := 50
  stepDelay : Rat := 1
  temperature : Rat := 0
  stuckDetectionThreshold : Nat := 3
  maxRecoveryAttempts : Nat := 2

/-- Python `lst[-n:]`.  For `n = 0` this is the whole list (CPython slice
semantics), otherwise the last `n` elements. -/
def pyTakeLast {α : Type} (n : Nat) (l : List α) : List α :=
  if n = 0 then l else l.drop (l.length - n)

/-- The screenshot-history update in `_check_stuck_state`: append the new
fingerprint, then keep only the most recent `stuck_detection_threshold`. -/
def windowUpdate (cfg : AgentConfig) (w : List String) (fp : String) : List String :=
  let w1 := w ++ [fp]
  if cfg.stuckDetectionThreshold < w1.length then pyTakeLast cfg.stuckDetectionThreshold w1
  else w1

/-- Python `len(set(l))`: the number of distinct fingerprints. -/
def distinctCount (l : List String) : Nat := l.dedup.length

/-- Model of `MobileDroidAgent._check_stuck_state` as a pure transition: from the
current window and recovery-attempt counter and a new fingerprint, produce
the stuck flag, the updated window, and the updated counter. -/
def checkStuckState (cfg : AgentConfig) (w : List String) (attempts : Nat)
    (fp : String) : Bool × List String × Nat :=
  let w2 := windowUpdate cfg w fp
  if w2.length < cfg.stuckDetectionThreshold then (false, w2, attempts)
  else if distinctCount w2 = 1 then
    if attempts < cfg.maxRecoveryAttempts then (true, w2, attempts)
    else (false, w2, attempts)
  else if 1 < distinctCount w2 then (false, w2, 0)
  else (false, w2, attempts)

/- ## Recovery planning (src/lib/agent/src/agent.py) -/

/-- One recorded step (`AgentStep`).  The screenshot is represented by its
fingerprint and the executor result by the abstract value the environment
reports for the step. -/
structure AgentStep where
  stepNumber : Nat
  action : Action
  result : JValue
  screenshotFp : String

/-- The trailing default-strategy block of `_get_recovery_action`
(`n` is the already-incremented attempt number). -/
def defaultRecovery (n : Nat) : Nat × Option Action :=
  if n = 1 then
    (n, some { type := .back, params := [],
               reasoning := .jstr ("Recovery: Navigate back to unstick") })
  else if n = 2 then
    (n, some { type := .home, params := [],
               reasoning := .jstr ("Recovery: Go to home screen to reset") })
  else (n, none)

/-- Model of `MobileDroidAgent._get_recovery_action`: increment the attempt counter,
inspect the last of the three most recent actions, and choose the escalation
action.  Returns the updated counter and the chosen action (or `none`). -/
def getRecoveryAction (recoveryAttempts : Nat) (steps : List AgentStep) :
    Nat × Option Action :=
  let n := recoveryAttempts + 1
  let recentActions := (pyTakeLast 3 steps).map AgentStep.action
  match recentActions.getLast? with
  | some lastAction =>
    if lastAction.type = ActionType.tap then
      if n = 1 then
        (n, some { type := .tap,
                   params := dictSet lastAction.params ("duration") (.jnum 1000),
                   reasoning := .jstr ("Recovery: Long press instead of tap") })
      else if n = 2 then
        (n, some { type := .back, params := [],
                   reasoning := .jstr ("Recovery: Go back to reset state") })
      else defaultRecovery n
    else if lastAction.type = ActionType.swipe then
      (n, some { type := .back, params := [],
                 reasoning := .jstr ("Recovery: Go back after stuck swipe") })
    else defaultRecovery n
  | none => defaultRecovery n

/- ## The task loop (MobileDroidAgent.execute_task) -/

/-- What the outside world supplies for one step: the fingerprint of the
freshly captured screenshot, the outcome of the LLM call (`error` models an
exception propagating out of `_get_action`; `ok` carries the raw response
text), the token count the provider reports, and the executor result for
whatever action is executed this step (device I/O is external). -/
structure StepEnv where
  fingerprint : String
  llm : Except String String
  tokens : Nat
  execResult : JValue

/-- Model of `AgentResult`.  The fields `result` and `error` keep the raw Python values
(`action.params.get(...)` can be any JSON value; message strings are wrapped
in `jstr`). -/
structure AgentResult where
  success : Bool
  result : Option JValue
  error : Option JValue
  steps : List AgentStep
  totalTokens : Nat

/-- The loop-carried state of one `execute_task` run. -/
structure LoopState where
  stepNumber : Nat
  window : List String
  attempts : Nat
  steps : List AgentStep
  totalTokens : Nat

/-- The initial state (`execute_task` resets history, counters and the
screenshot window). -/
def initialState : LoopState :=
  { stepNumber := 1, window := [], attempts := 0, steps := [], totalTokens := 0 }

def stuckFailMsg (n : Nat) : String :=
  s!"Task stuck after {n} steps. No recovery strategy available."

def stepFailMsg (n : Nat) (e : String) : String :=
  s!"Step {n} failed: " ++ e

def timeoutMsg (n : Nat) : String :=
  s!"Task did not complete within {n} steps"

/-- One iteration of the `for step_number in range(1, max_steps + 1)` body:
either a terminal `AgentResult` (`Except.error`) or the state carried into
the next step (`Except.ok`).  Exceptions inside the step body are modelled at
their only internal sources: the LLM call (`env.llm`) and action construction
(`Action.from_dict`); both are caught by the per-step `except` clause, which
fails the task with a `Step N failed:` message. -/
def loopStep (cfg : AgentConfig) (env : Nat -> StepEnv) (s : LoopState) :
    Except AgentResult LoopState :=
  let e := env s.stepNumber
  let c := checkStuckState cfg s.window s.attempts e.fingerprint
  let isStuck := c.1
  let w2 := c.2.1
  let a2 := c.2.2
  if isStuck then
    let r := getRecoveryAction a2 s.steps
    match r.2 with
    | some recoveryAction =>
      Except.ok { stepNumber := s.stepNumber + 1, window := w2, attempts := r.1,
                  steps := s.steps ++ [{ stepNumber := s.stepNumber,
                                         action := recoveryAction,
                                         result := e.execResult,
                                         screenshotFp := e.fingerprint }],
                  totalTokens := s.totalTokens }
    | none =>
      Except.error { success := false, result := none,
                     error := some (.jstr (stuckFailMsg s.stepNumber)),
                     steps := s.steps, totalTokens := s.totalTokens }
  else
    match e.llm with
    | .error msg =>
      Except.error { success := false, result := none,
                     error := some (.jstr (stepFailMsg s.stepNumber msg)),
                     steps := s.steps, totalTokens := s.totalTokens }
    | .ok rawText =>
      let tokens2 := s.totalTokens + e.tokens
      match Action.from_dict (parseActionJson rawText) with
      | .error msg =>
        Except.error { success := false, result := none,
                       error := some (.jstr (stepFailMsg s.stepNumber msg)),
                       steps := s.steps, totalTokens := tokens2 }
      | .ok action =>
        let steps2 := s.steps ++ [{ stepNumber := s.stepNumber, action := action,
                                    result := e.execResult,
                                    screenshotFp := e.fingerprint }]
        if action.type = ActionType.done then
          Except.error { success := true,
                         result := lookupJ action.params ("result"),
                         error := none, steps := steps2, totalTokens := tokens2 }
        else if action.type = ActionType.fail then
          Except.error { success := false, result := none,
                         error := lookupJ action.params ("reason"),
                         steps := steps2, totalTokens := tokens2 }
        else
          Except.ok { stepNumber := s.stepNumber + 1, window := w2, attempts := a2,
                      steps := steps2, totalTokens := tokens2 }

/-- Run the remaining loop iterations; when the iterations are exhausted the
max-steps result is produced. -/
def runFrom (cfg : AgentConfig) (env : Nat -> StepEnv) :
    Nat -> LoopState -> AgentResult
  | 0, s =>
    { success := false, result := none,
      error := some (.jstr (timeoutMsg cfg.maxSteps)),
      steps := s.steps, totalTokens := s.totalTokens }
  | fuel + 1, s =>
    match loopStep cfg env s with
    | .error r => r
    | .ok s2 => runFrom cfg env fuel s2

/-- Model of `MobileDroidAgent.execute_task`: run `max_steps` iterations from the
reset state. -/
def executeTask (cfg : AgentConfig) (env : Nat -> StepEnv) : AgentResult :=
  runFrom cfg env cfg.maxSteps initialState

/-- The state after `n` completed loop iterations (`error` once the run has
terminated with a result).  Used to state reachability invariants. -/
def iterState (cfg : AgentConfig) (env : Nat -> StepEnv) :
    Nat -> Except AgentResult LoopState
  | 0 => Except.ok initialState
  | n + 1 =>
    match iterState cfg env n with
    | .error r => .error r
    | .ok s => loopStep cfg env s

/- ## Integration resolution (src/packages/api/src/services/integration_service.py) -/

/-- The provider row joined onto an integration (`integration.provider`). -/
structure LLMProviderRec where
  name : String
  apiKeyEncrypted : Option String
  baseUrl : String

/-- The model row joined onto an integration (`integration.model`). -/
structure LLMModelRec where
  name : String
  maxTokens : Option Nat

/-- One `Integration` row with its joined provider and model. -/
structure Integration where
  id : String
  provider : LLMProviderRec
  model : LLMModelRec
  maxTokens : Option Nat
  temperature : Rat
  topP : Option Rat
  topK : Option Nat
  fallbackIntegrationId : Option String

/-- The resolved `IntegrationConfig`. -/
structure IntegrationConfig where
  providerName : String
  modelName : String
  apiKey : String
  baseUrl : String
  maxTokens : Option Nat
  temperature : Rat
  topP : Option Rat
  topK : Option Nat
  integrationId : Option String
  fallbackIntegrationId : Option String

/-- Model of `IntegrationService._decrypt_api_key`: raises `NoAPIKeyError` when the
stored key is `None` or empty (Python falsiness), else returns it. -/
def decryptApiKey : Option String -> Except String String
  | none => .error ("No API key configured for provider")
  | some k => if k = "" then .error ("No API key configured for provider") else .ok k

/-- Python `integration.max_tokens or integration.model.max_tokens`
(`0` and `None` both fall through). -/
def pyOrNat : Option Nat -> Option Nat -> Option Nat
  | some n, b => if n = 0 then b else some n
  | none, b => b

/-- Building the `IntegrationConfig` once the key has been resolved. -/
def mkIntegrationConfig (i : Integration) (apiKey : String) : IntegrationConfig :=
  { providerName := i.provider.name, modelName := i.model.name, apiKey := apiKey,
    baseUrl := i.provider.baseUrl,
    maxTokens := pyOrNat i.maxTokens i.model.maxTokens,
    temperature := i.temperature, topP := i.topP, topK := i.topK,
    integrationId := some i.id,
    fallbackIntegrationId := i.fallbackIntegrationId }

/-- Model of `IntegrationService._get_integration_by_id`: look the id up in the
database (modelled as the list of integration rows). -/
def getIntegrationById (db : List Integration) (id0 : String) : Option Integration :=
  db.find? (fun i => i.id = id0)

/-- Model of `IntegrationService._build_config_with_fallback`.  Here `fuel` makes the
recursion well-founded in Lean; `none` marks fuel exhaustion (the theorems
show it is never hit once `fuel` exceeds the number of distinct ids), while
`some none` is the Python `None` outcome (no usable integration, the
`NotFoundError` of the spec) and `some (some c)` a resolved config. -/
def buildConfigWithFallback (db : List Integration) :
    Nat -> List String -> Bool -> Integration -> Option (Option IntegrationConfig)
  | 0, _, _, _ => none
  | fuel + 1, visitedIds, useFallbackChain, integration =>
    if visitedIds.contains integration.id then some none
    else
      let visited2 := integration.id :: visitedIds
      match decryptApiKey integration.provider.apiKeyEncrypted with
      | .ok apiKey => some (some (mkIntegrationConfig integration apiKey))
      | .error _ =>
        match integration.fallbackIntegrationId with
        | some fid =>
          if useFallbackChain && !(fid = "") then
            match getIntegrationById db fid with
            | some fallback => buildConfigWithFallback db fuel visited2 true fallback
            | none => some none
          else some none
        | none => some none

/-- Resolution entry: `_build_config_with_fallback` is first called with an
empty visited set; `db.length + 1` fuel is enough for any chain (proved
below). -/
def resolveIntegration (db : List Integration) (integration : Integration) :
    Option (Option IntegrationConfig) :=
  buildConfigWithFallback db (db.length + 1) [] true integration

/- ## Scaffolding definitions used by the verification statements -/

/-- The fingerprint window after a whole sequence of observations, starting
from the reset (empty) window. -/
def windowAfter (cfg : AgentConfig) (fps : List String) : List String :=
  fps.foldl (windowUpdate cfg) []

/-- Projection of a loop state to its window and recovery counter (used to
state concrete facts about intermediate states without binders). -/
def stateWindowAttempts : Except AgentResult LoopState -> Option (List String × Nat)
  | .ok s => some (s.window, s.attempts)
  | .error _ => none

/- Concrete inputs for the counterexample and witness evaluations. -/

def quoteS : String := String.singleton quoteC

def lbraceS : String := String.singleton lbraceC

def rbraceS : String := String.singleton rbraceC

/-- A well-formed model response choosing the `wait` action. -/
def waitRaw : String :=
  lbraceS ++ quoteS ++ "action" ++ quoteS ++ ": " ++ quoteS ++ "wait" ++ quoteS
    ++ ", " ++ quoteS ++ "reasoning" ++ quoteS ++ ": " ++ quoteS ++ "w" ++ quoteS ++ rbraceS

/-- A decodable model response with an unrecognized action kind. -/
def explodeRaw : String :=
  lbraceS ++ quoteS ++ "action" ++ quoteS ++ ": " ++ quoteS ++ "explode" ++ quoteS ++ rbraceS

/-- An environment whose screen never changes and whose model always answers
with the `wait` action. -/
def constEnvA : Nat -> StepEnv := fun _ =>
  { fingerprint := "A", llm := .ok waitRaw, tokens := 10, execResult := .jnull }

/-- The parsed `wait` action `constEnvA` produces each step. -/
def waitAction : Action :=
  { type := .wait, params := [("duration", .jnum 1000)], reasoning := .jstr ("w") }

/-- A swipe action with the parameter shape `Action.from_dict` gives it. -/
def swipeActionC : Action :=
  { type := .swipe,
    params := [("x1", .jnum 0), ("y1", .jnum 0), ("x2", .jnum 0), ("y2", .jnum 0),
               ("duration", .jnum 300)],
    reasoning := .jstr ("s") }

/-- A tap action with the parameter shape `Action.from_dict` gives it. -/
def tapActionC : Action :=
  { type := .tap,
    params := [("x", .jnum (1/2)), ("y", .jnum (3/10)), ("duration", .jnull),
               ("post_delay", .jnum 300)],
    reasoning := .jstr ("t") }

/-- Wrap an action as a recorded step. -/
def stepOfAction (a : Action) : AgentStep :=
  { stepNumber := 1, action := a, result := .jnull, screenshotFp := "A" }

/-- Concrete integrations forming the fallback cycle A -> B -> C -> A with no
stored credentials. -/
def integNoKey (id0 : String) (fb : Option String) : Integration :=
  { id := id0,
    provider := { name := "prov-" ++ id0, apiKeyEncrypted := none, baseUrl := "url" },
    model := { name := "model", maxTokens := some 1024 },
    maxTokens := none, temperature := 0, topP := none, topK := none,
    fallbackIntegrationId := fb }

def cycleDb : List Integration :=
  [integNoKey ("A") (some ("B")), integNoKey ("B") (some ("C")),
   integNoKey ("C") (some ("A"))]

/-- The action the recovery planner keys on: the last of the (at most) three
most recent recorded actions. -/
def lastRecentAction (steps : List AgentStep) : Option Action :=
  ((pyTakeLast 3 steps).map AgentStep.action).getLast?

/-- Concrete tap parameters carrying a 1000 ms duration (the recovery
long-press shape). -/
def pLongC : JObj :=
  [("x", .jnum (1/2)), ("y", .jnum (3/10)), ("duration", .jnum 1000),
   ("post_delay", .jnum 300)]

/-- The tap outcome for `pLongC` on a 1080x2400 screen. -/
def rLongC : TapResult :=
  { x := 540, y := 720, xPercent := 1/2, yPercent := 3/10, kind := "long_press",
    duration := .jnum 1000, postDelay := .jnum 300 }

/- # Theorems -/

/- ## Helper lemmas on distinct counts and the fingerprint window -/

theorem distinctCount_eq_zero_iff (l : List String) : distinctCount l = 0 ↔ l = [] := by
  simp [distinctCount, List.length_eq_zero, List.dedup_eq_nil]

theorem distinctCount_eq_one_iff (l : List String) :
    distinctCount l = 1 ↔ l ≠ [] ∧ ∀ x ∈ l, ∀ y ∈ l, x = y := by
  constructor
  · intro h
    obtain ⟨a, ha⟩ := List.length_eq_one.mp h
    refine ⟨?_, ?_⟩
    · intro hnil
      rw [hnil] at ha
      simp at ha
    · intro x hx y hy
      have hx2 : x ∈ l.dedup := List.mem_dedup.mpr hx
      have hy2 : y ∈ l.dedup := List.mem_dedup.mpr hy
      rw [ha] at hx2 hy2
      simp at hx2 hy2
      rw [hx2, hy2]
  · rintro ⟨hne, hall⟩
    rcases hd : l.dedup with _ | ⟨c, _ | ⟨d, ds⟩⟩
    · exact absurd ((List.dedup_eq_nil l).mp hd) hne
    · simp [distinctCount, hd]
    · exfalso
      have hnd := List.nodup_dedup l
      rw [hd] at hnd
      have hc : c ∈ l := List.mem_dedup.mp (by rw [hd]; exact List.mem_cons_self _ _)
      have hdm : d ∈ l :=
        List.mem_dedup.mp (by rw [hd]; exact List.mem_cons_of_mem _ (List.mem_cons_self _ _))
      have hcd : c = d := hall c hc d hdm
      rw [List.nodup_cons] at hnd
      exact hnd.1 (by rw [hcd]; exact List.mem_cons_self _ _)

theorem pyTakeLast_length {α : Type} (n : Nat) (h : 1 ≤ n) (l : List α) :
    (pyTakeLast n l).length = min n l.length := by
  have : ¬ n = 0 := by omega
  simp [pyTakeLast, this]
  omega

theorem pyTakeLast_nil {α : Type} (n : Nat) : pyTakeLast n ([] : List α) = [] := by
  simp [pyTakeLast]

theorem pyTakeLast_of_le {α : Type} (n : Nat) (l : List α) (h : l.length ≤ n) :
    pyTakeLast n l = l := by
  rcases Nat.eq_zero_or_pos n with h0 | h0
  · simp [pyTakeLast, h0]
  · have : ¬ n = 0 := by omega
    simp [pyTakeLast, this, Nat.sub_eq_zero_of_le h]

theorem windowUpdate_length (cfg : AgentConfig) (h1 : 1 ≤ cfg.stuckDetectionThreshold)
    (w : List String) (fp : String) :
    (windowUpdate cfg w fp).length = min cfg.stuckDetectionThreshold (w.length + 1) := by
  simp only [windowUpdate]
  split_ifs with h
  · rw [pyTakeLast_length _ h1]
    simp only [List.length_append, List.length_singleton] at h ⊢
  · simp only [List.length_append, List.length_singleton] at h ⊢
    omega

theorem windowUpdate_of_lt (cfg : AgentConfig) (w : List String) (fp : String)
    (h : w.length + 1 ≤ cfg.stuckDetectionThreshold) :
    windowUpdate cfg w fp = w ++ [fp] := by
  simp only [windowUpdate]
  rw [if_neg (by simp only [List.length_append, List.length_singleton]; omega)]

theorem windowUpdate_takeLast (cfg : AgentConfig)
    (h1 : 1 ≤ cfg.stuckDetectionThreshold) (p : List String) (fp : String) :
    windowUpdate cfg (pyTakeLast cfg.stuckDetectionThreshold p) fp
      = pyTakeLast cfg.stuckDetectionThreshold (p ++ [fp]) := by
  have ht : ¬ cfg.stuckDetectionThreshold = 0 := by omega
  by_cases hp : p.length + 1 ≤ cfg.stuckDetectionThreshold
  · rw [pyTakeLast_of_le _ _ (by omega), windowUpdate_of_lt _ _ _ hp,
      pyTakeLast_of_le _ _ (by simp only [List.length_append, List.length_singleton]; omega)]
  · have hlen : (pyTakeLast cfg.stuckDetectionThreshold p).length
        = cfg.stuckDetectionThreshold := by
      rw [pyTakeLast_length _ h1]
      omega
    simp only [windowUpdate]
    rw [if_pos (by rw [List.length_append, hlen]; simp only [List.length_singleton]; omega)]
    simp only [pyTakeLast, if_neg ht]
    simp only [List.length_append, List.length_drop, List.length_singleton]
    have e2 : p.length - (p.length - cfg.stuckDetectionThreshold) + 1
        - cfg.stuckDetectionThreshold = 1 := by omega
    rw [e2]
    rw [List.drop_append_of_le_length (by rw [List.length_drop]; omega)]
    rw [List.drop_drop]
    rw [List.drop_append_of_le_length (by omega)]
    congr 2
    omega

theorem foldl_windowUpdate (cfg : AgentConfig) (h1 : 1 ≤ cfg.stuckDetectionThreshold) :
    ∀ (fps p : List String),
      fps.foldl (windowUpdate cfg) (pyTakeLast cfg.stuckDetectionThreshold p)
        = pyTakeLast cfg.stuckDetectionThreshold (p ++ fps) := by
  intro fps
  induction fps with
  | nil => intro p; simp
  | cons f rest ih =>
    intro p
    simp only [List.foldl_cons]
    rw [windowUpdate_takeLast cfg h1, ih (p ++ [f])]
    simp

theorem windowAfter_eq (cfg : AgentConfig) (h1 : 1 ≤ cfg.stuckDetectionThreshold)
    (fps : List String) :
    windowAfter cfg fps = pyTakeLast cfg.stuckDetectionThreshold fps := by
  have h0 := foldl_windowUpdate cfg h1 fps []
  rw [pyTakeLast_nil] at h0
  simpa [windowAfter] using h0

theorem checkStuckState_window (cfg : AgentConfig) (w : List String) (a : Nat)
    (fp : String) : (checkStuckState cfg w a fp).2.1 = windowUpdate cfg w fp := by
  simp only [checkStuckState]
  split_ifs <;> rfl

/-- Exhaustive case analysis of one `_check_stuck_state` call (for a positive
threshold): the updated window is `windowUpdate`, and the flag/counter fall
into exactly one of three regimes. -/
theorem checkStuckState_cases (cfg : AgentConfig) (w : List String) (a : Nat)
    (fp : String) (h1 : 1 ≤ cfg.stuckDetectionThreshold) :
    (checkStuckState cfg w a fp).2.1 = windowUpdate cfg w fp ∧
    (((windowUpdate cfg w fp).length < cfg.stuckDetectionThreshold ∧
        (checkStuckState cfg w a fp).2.2 = a ∧ (checkStuckState cfg w a fp).1 = false ∧
        (windowUpdate cfg w fp).length = w.length + 1) ∨
     ((windowUpdate cfg w fp).length = cfg.stuckDetectionThreshold ∧
        distinctCount (windowUpdate cfg w fp) = 1 ∧
        (checkStuckState cfg w a fp).2.2 = a ∧
        ((checkStuckState cfg w a fp).1 = true ↔ a < cfg.maxRecoveryAttempts)) ∨
     ((windowUpdate cfg w fp).length = cfg.stuckDetectionThreshold ∧
        1 < distinctCount (windowUpdate cfg w fp) ∧
        (checkStuckState cfg w a fp).2.2 = 0 ∧ (checkStuckState cfg w a fp).1 = false)) := by
  have hlen := windowUpdate_length cfg h1 w fp
  refine ⟨checkStuckState_window cfg w a fp, ?_⟩
  simp only [checkStuckState]
  split_ifs with hl hd hb hgt
  · exact Or.inl ⟨hl, rfl, rfl, by omega⟩
  · exact Or.inr (Or.inl ⟨by omega, hd, rfl, by simp [hb]⟩)
  · exact Or.inr (Or.inl ⟨by omega, hd, rfl, by simp [hb]⟩)
  · exact Or.inr (Or.inr ⟨by omega, hgt, rfl, rfl⟩)
  · exfalso
    have h0 : distinctCount (windowUpdate cfg w fp) = 0 := by omega
    rw [distinctCount_eq_zero_iff] at h0
    rw [h0] at hlen
    simp at hlen
    omega

/-- C3.  The stuck check reports stuck iff the (post-update) window is full,
all fingerprints in it are identical, and the recovery budget still has room;
with an exhausted budget it reports false even on a uniform full window. -/
theorem c3_stuck_iff (cfg : AgentConfig) (w : List String) (a : Nat) (fp : String)
    (h1 : 1 ≤ cfg.stuckDetectionThreshold) :
    (checkStuckState cfg w a fp).1 = true ↔
      ((windowUpdate cfg w fp).length = cfg.stuckDetectionThreshold ∧
       (∀ x ∈ windowUpdate cfg w fp, ∀ y ∈ windowUpdate cfg w fp, x = y) ∧
       a < cfg.maxRecoveryAttempts) := by
  rcases (checkStuckState_cases cfg w a fp h1).2 with
    ⟨hl, _, hfalse, _⟩ | ⟨hl, hd, _, hiff⟩ | ⟨hl, hd, _, hfalse⟩
  · rw [hfalse]
    simp only [Bool.false_eq_true, false_iff]
    rintro ⟨he, _, _⟩
    omega
  · rw [hiff]
    have hall := (distinctCount_eq_one_iff _).mp hd
    constructor
    · intro hb
      exact ⟨hl, hall.2, hb⟩
    · rintro ⟨_, _, hb⟩
      exact hb
  · rw [hfalse]
    simp only [Bool.false_eq_true, false_iff]
    rintro ⟨_, hall, _⟩
    have hne : windowUpdate cfg w fp ≠ [] := by
      intro h0
      rw [h0] at hl
      simp at hl
      omega
    have := (distinctCount_eq_one_iff _).mpr ⟨hne, hall⟩
    omega

/-- Witness for C3: a uniform window of three identical fingerprints with an
unspent budget is reported stuck. -/
theorem c3_stuck_iff_witness :
    (checkStuckState {} ["A", "A"] 0 ("A")).1 = true :=
  (c3_stuck_iff {} ["A", "A"] 0 ("A") (by decide)).mpr
    ⟨by decide, by decide, by decide⟩

/-- C10.  After any sequence of observations the stored window is exactly the
trailing `stuck_detection_threshold` fingerprints (oldest discarded first),
hence never longer than the threshold, and the stuck flag is only ever raised
with a full window. -/
theorem c10_window_bound (cfg : AgentConfig) (fps : List String)
    (h1 : 1 ≤ cfg.stuckDetectionThreshold) :
    windowAfter cfg fps = pyTakeLast cfg.stuckDetectionThreshold fps ∧
    (windowAfter cfg fps).length ≤ cfg.stuckDetectionThreshold ∧
    (∀ w a fp, (checkStuckState cfg w a fp).1 = true →
       (checkStuckState cfg w a fp).2.1.length = cfg.stuckDetectionThreshold) := by
  refine ⟨windowAfter_eq cfg h1 fps, ?_, ?_⟩
  · rw [windowAfter_eq cfg h1 fps, pyTakeLast_length _ h1]
    omega
  · intro w a fp hs
    rw [checkStuckState_window]
    rcases (checkStuckState_cases cfg w a fp h1).2 with
      ⟨_, _, hfalse, _⟩ | ⟨hl, _, _, _⟩ | ⟨_, _, _, hfalse⟩
    · rw [hs] at hfalse
      exact absurd hfalse (by simp)
    · exact hl
    · rw [hs] at hfalse
      exact absurd hfalse (by simp)

/-- Witness for C10 at a concrete observation sequence longer than the
threshold. -/
theorem c10_window_bound_witness :
    windowAfter {} ["a", "b", "c", "d"] = pyTakeLast 3 ["a", "b", "c", "d"] ∧
    (windowAfter {} ["a", "b", "c", "d"]).length ≤ 3 :=
  ⟨(c10_window_bound {} ["a", "b", "c", "d"] (by decide)).1,
   (c10_window_bound {} ["a", "b", "c", "d"] (by decide)).2.1⟩

/- ## C4: the recovery ladder -/

theorem getRecoveryAction_fst (a : Nat) (steps : List AgentStep) :
    (getRecoveryAction a steps).1 = a + 1 := by
  simp only [getRecoveryAction, defaultRecovery]
  rcases ((pyTakeLast 3 steps).map AgentStep.action).getLast? with _ | la <;>
    dsimp only <;> split_ifs <;> rfl

/-- Counterexample to C4 as stated: with a swipe as the most recent action,
the planner still yields `back` at attempt 3, which is beyond the configured
default maximum of 2 recovery attempts — it does not return nothing. -/
theorem c4_counterexample :
    (getRecoveryAction ({} : AgentConfig).maxRecoveryAttempts
        [stepOfAction swipeActionC]).2
      = some { type := ActionType.back, params := [],
               reasoning := .jstr ("Recovery: Go back after stuck swipe") } := rfl

/-- C4 (amended).  The planner policy keyed on the last recent action:
tap ⇒ long-press (attempt 1, same parameters with `duration` set to 1000)
then `back` (attempt 2); swipe ⇒ `back` at **every** attempt; otherwise
`back` (attempt 1) then `home` (attempt 2); and `none` from attempt 3 on
except in the swipe case — the planner hard-codes this ladder and never
consults the configured maximum.  `a` is the counter value before the call
(the call reports attempt `a + 1`). -/
theorem c4_amended (a : Nat) (steps : List AgentStep) :
    (∀ la, lastRecentAction steps = some la → la.type = ActionType.tap → a = 0 →
       (getRecoveryAction a steps).2 =
         some { type := ActionType.tap,
                params := dictSet la.params ("duration") (.jnum 1000),
                reasoning := .jstr ("Recovery: Long press instead of tap") }) ∧
    (∀ la, lastRecentAction steps = some la → la.type = ActionType.tap → a = 1 →
       (getRecoveryAction a steps).2 =
         some { type := ActionType.back, params := [],
                reasoning := .jstr ("Recovery: Go back to reset state") }) ∧
    (∀ la, lastRecentAction steps = some la → la.type = ActionType.swipe →
       (getRecoveryAction a steps).2 =
         some { type := ActionType.back, params := [],
                reasoning := .jstr ("Recovery: Go back after stuck swipe") }) ∧
    ((lastRecentAction steps = none ∨
      (∃ la, lastRecentAction steps = some la ∧
         la.type ≠ ActionType.tap ∧ la.type ≠ ActionType.swipe)) →
       (a = 0 → (getRecoveryAction a steps).2 =
          some { type := ActionType.back, params := [],
                 reasoning := .jstr ("Recovery: Navigate back to unstick") }) ∧
       (a = 1 → (getRecoveryAction a steps).2 =
          some { type := ActionType.home, params := [],
                 reasoning := .jstr ("Recovery: Go to home screen to reset") })) ∧
    ((∀ la, lastRecentAction steps = some la → la.type ≠ ActionType.swipe) →
       2 ≤ a → (getRecoveryAction a steps).2 = none) := by
  refine ⟨?_, ?_, ?_, ?_, ?_⟩
  · intro la hla htap ha
    subst ha
    simp only [getRecoveryAction, lastRecentAction] at hla ⊢
    rw [hla]
    simp [htap]
  · intro la hla htap ha
    subst ha
    simp only [getRecoveryAction, lastRecentAction] at hla ⊢
    rw [hla]
    simp [htap]
  · intro la hla hsw
    simp only [getRecoveryAction, lastRecentAction] at hla ⊢
    rw [hla]
    have : la.type ≠ ActionType.tap := by rw [hsw]; intro h; cases h
    simp [this, hsw]
  · intro hcase
    constructor
    · intro ha
      subst ha
      rcases hcase with hnone | ⟨la, hla, hnt, hns⟩
      · simp only [getRecoveryAction, lastRecentAction, defaultRecovery] at hnone ⊢
        rw [hnone]
        simp
      · simp only [getRecoveryAction, lastRecentAction, defaultRecovery] at hla ⊢
        rw [hla]
        simp [hnt, hns]
    · intro ha
      subst ha
      rcases hcase with hnone | ⟨la, hla, hnt, hns⟩
      · simp only [getRecoveryAction, lastRecentAction, defaultRecovery] at hnone ⊢
        rw [hnone]
        simp
      · simp only [getRecoveryAction, lastRecentAction, defaultRecovery] at hla ⊢
        rw [hla]
        simp [hnt, hns]
  · intro hns ha
    have h1 : ¬ (a + 1 = 1) := by omega
    have h2 : ¬ (a + 1 = 2) := by omega
    simp only [getRecoveryAction, lastRecentAction, defaultRecovery] at hns ⊢
    rcases hlast : ((pyTakeLast 3 steps).map AgentStep.action).getLast? with _ | la
    · simp [h1, h2]
    · have hsw := hns la hlast
      by_cases htap : la.type = ActionType.tap
      · simp [htap, h1, h2]
      · simp [htap, hsw, h1, h2]

/-- Witness for C4 (amended): the concrete tap history at attempts 1 and 3. -/
theorem c4_amended_witness :
    (getRecoveryAction 0 [stepOfAction tapActionC]).2 =
      some { type := ActionType.tap,
             params := dictSet tapActionC.params ("duration") (.jnum 1000),
             reasoning := .jstr ("Recovery: Long press instead of tap") } ∧
    (getRecoveryAction 2 [stepOfAction tapActionC]).2 = none :=
  ⟨(c4_amended 0 [stepOfAction tapActionC]).1 tapActionC rfl rfl rfl,
   (c4_amended 2 [stepOfAction tapActionC]).2.2.2.2
     (by intro la hla; cases hla; decide) (by omega)⟩

/- ## C8, C9: coordinate clamping and the long-press decision -/

theorem lookupJ_dictSet_self (d : JObj) (k : String) (v : JValue) :
    lookupJ (dictSet d k v) k = some v := by
  induction d with
  | nil => simp [dictSet, lookupJ]
  | cons kv rest ih =>
    obtain ⟨k0, v0⟩ := kv
    by_cases h : k0 = k
    · simp [dictSet, lookupJ, h]
    · simp [dictSet, lookupJ, h, ih]

theorem lookupJ_dictSet_other (d : JObj) (k k2 : String) (v : JValue)
    (h : k2 ≠ k) : lookupJ (dictSet d k v) k2 = lookupJ d k2 := by
  have h2 : ¬ k = k2 := by
    intro he
    exact h he.symm
  induction d with
  | nil => simp [dictSet, lookupJ, h2]
  | cons kv rest ih =>
    obtain ⟨k0, v0⟩ := kv
    by_cases h0 : k0 = k
    · subst h0
      simp [dictSet, lookupJ, h2]
    · simp [dictSet, lookupJ, h0, ih]

theorem toPixels_coord_bounds (n : Nat) (q : Rat) :
    0 ≤ pyInt (clamp01 q * (n : Rat)) ∧ pyInt (clamp01 q * (n : Rat)) ≤ (n : Int) := by
  have hc0 : 0 ≤ clamp01 q := le_max_left 0 _
  have hc1 : clamp01 q ≤ 1 := max_le (by norm_num) (min_le_left 1 q)
  have h0 : (0 : Rat) ≤ clamp01 q * (n : Rat) := mul_nonneg hc0 (by positivity)
  have h1 : clamp01 q * (n : Rat) ≤ (n : Rat) := by
    calc clamp01 q * (n : Rat) ≤ 1 * (n : Rat) :=
          mul_le_mul_of_nonneg_right hc1 (by positivity)
    _ = (n : Rat) := one_mul _
  constructor
  · rw [pyInt, if_pos h0]
    exact Int.le_floor.mpr (by exact_mod_cast h0)
  · rw [pyInt, if_pos h0]
    calc Int.floor (clamp01 q * (n : Rat)) ≤ Int.floor ((n : Rat)) := Int.floor_le_floor h1
    _ = (n : Int) := by exact_mod_cast Int.floor_natCast n

theorem toPixels_bounds (w h : Nat) (x y : Rat) :
    0 ≤ (toPixels w h x y).1 ∧ (toPixels w h x y).1 ≤ (w : Int) ∧
    0 ≤ (toPixels w h x y).2 ∧ (toPixels w h x y).2 ≤ (h : Int) :=
  ⟨(toPixels_coord_bounds w x).1, (toPixels_coord_bounds w x).2,
   (toPixels_coord_bounds h y).1, (toPixels_coord_bounds h y).2⟩

theorem tapRun_ok_pixels (w h : Nat) (params : JObj) (r : TapResult)
    (hr : tapRun w h params = .ok r) :
    ∃ xq yq, r.x = (toPixels w h xq yq).1 ∧ r.y = (toPixels w h xq yq).2 := by
  simp only [tapRun] at hr
  repeat' split at hr
  all_goals cases hr
  all_goals exact ⟨_, _, rfl, rfl⟩

theorem swipeRun_ok_pixels (w h : Nat) (params : JObj) (r : SwipeResult)
    (hr : swipeRun w h params = .ok r) :
    ∃ aq bq cq dq, r.x1 = (toPixels w h aq bq).1 ∧ r.y1 = (toPixels w h aq bq).2 ∧
      r.x2 = (toPixels w h cq dq).1 ∧ r.y2 = (toPixels w h cq dq).2 := by
  simp only [swipeRun] at hr
  repeat' split at hr
  all_goals cases hr
  all_goals exact ⟨_, _, _, _, rfl, rfl, rfl, rfl⟩

/-- C8.  Pixel coordinates are always computed from clamped normalized
coordinates, landing inside the screen rectangle, and out-of-range inputs
trip the warning test before clamping. -/
theorem c8_clamp_bounds (w h : Nat) (x y : Rat) :
    (0 ≤ (toPixels w h x y).1 ∧ (toPixels w h x y).1 ≤ (w : Int) ∧
     0 ≤ (toPixels w h x y).2 ∧ (toPixels w h x y).2 ≤ (h : Int)) ∧
    ((x < 0 ∨ 1 < x ∨ y < 0 ∨ 1 < y) → coordWarn x y = true) ∧
    (∀ params r, tapRun w h params = .ok r →
       0 ≤ r.x ∧ r.x ≤ (w : Int) ∧ 0 ≤ r.y ∧ r.y ≤ (h : Int)) ∧
    (∀ params r, swipeRun w h params = .ok r →
       0 ≤ r.x1 ∧ r.x1 ≤ (w : Int) ∧ 0 ≤ r.y1 ∧ r.y1 ≤ (h : Int) ∧
       0 ≤ r.x2 ∧ r.x2 ≤ (w : Int) ∧ 0 ≤ r.y2 ∧ r.y2 ≤ (h : Int)) := by
  refine ⟨toPixels_bounds w h x y, ?_, ?_, ?_⟩
  · intro hcase
    simp only [coordWarn, Bool.or_eq_true, decide_eq_true_eq]
    tauto
  · intro params r hr
    obtain ⟨xq, yq, hx, hy⟩ := tapRun_ok_pixels w h params r hr
    rw [hx, hy]
    obtain ⟨b1, b2, b3, b4⟩ := toPixels_bounds w h xq yq
    exact ⟨b1, b2, b3, b4⟩
  · intro params r hr
    obtain ⟨aq, bq, cq, dq, h1, h2, h3, h4⟩ := swipeRun_ok_pixels w h params r hr
    rw [h1, h2, h3, h4]
    obtain ⟨b1, b2, b3, b4⟩ := toPixels_bounds w h aq bq
    obtain ⟨b5, b6, b7, b8⟩ := toPixels_bounds w h cq dq
    exact ⟨b1, b2, b3, b4, b5, b6, b7, b8⟩

/-- Witness for C8 at the out-of-range input (1.5, -0.5) on a 1080x2400 screen. -/
theorem c8_clamp_bounds_witness :
    (0 ≤ (toPixels 1080 2400 (3/2) (-1/2)).1 ∧
     (toPixels 1080 2400 (3/2) (-1/2)).1 ≤ (1080 : Int) ∧
     0 ≤ (toPixels 1080 2400 (3/2) (-1/2)).2 ∧
     (toPixels 1080 2400 (3/2) (-1/2)).2 ≤ (2400 : Int)) ∧
    coordWarn (3/2) (-1/2) = true :=
  ⟨(c8_clamp_bounds 1080 2400 (3/2) (-1/2)).1,
   (c8_clamp_bounds 1080 2400 (3/2) (-1/2)).2.1 (Or.inr (Or.inl (by norm_num)))⟩

theorem tapRun_kind_eq (w h : Nat) (params : JObj) (r : TapResult)
    (hr : tapRun w h params = .ok r) :
    ∃ long, (if pyTruthy (jget params ("duration") .jnull)
               then pyGtNum (jget params ("duration") .jnull) 500
               else Except.ok false) = .ok long ∧
      r.kind = (if long then ("long_press") else ("tap")) := by
  simp only [tapRun] at hr
  repeat' split at hr
  all_goals cases hr
  all_goals exact ⟨_, (by assumption), by simp [*]⟩

theorem tapRun_long_press_iff (w h : Nat) (params : JObj) (r : TapResult)
    (hr : tapRun w h params = .ok r) :
    (r.kind = "long_press" ∨ r.kind = "tap") ∧
    (r.kind = "long_press" ↔
       ∃ d : Rat, lookupJ params ("duration") = some (.jnum d) ∧ 500 < d) := by
  obtain ⟨long, hlong, hkind⟩ := tapRun_kind_eq w h params r hr
  rcases hd : lookupJ params ("duration") with _ | v
  · have hj : jget params ("duration") .jnull = .jnull := by simp [jget, hd]
    rw [hj] at hlong
    simp only [pyTruthy, Bool.false_eq_true, if_false, Except.ok.injEq] at hlong
    rw [← hlong] at hkind
    simp only [Bool.false_eq_true, if_false] at hkind
    refine ⟨Or.inr hkind, ?_, ?_⟩
    · intro hcontra
      rw [hkind] at hcontra
      exact absurd hcontra (by decide)
    · rintro ⟨d, hdd, _⟩
      simp at hdd
  · have hj : jget params ("duration") .jnull = v := by simp [jget, hd]
    rw [hj] at hlong
    rcases v with _ | b | q | s | xs | kvs
    · simp only [pyTruthy, Bool.false_eq_true, if_false, Except.ok.injEq] at hlong
      rw [← hlong] at hkind
      simp only [Bool.false_eq_true, if_false] at hkind
      refine ⟨Or.inr hkind, ?_, ?_⟩
      · intro hcontra
        rw [hkind] at hcontra
        exact absurd hcontra (by decide)
      · rintro ⟨d, hdd, _⟩
        simp at hdd
    · have hfalse : long = false := by
        rcases b with _ | _
        · simp only [pyTruthy, Bool.false_eq_true, if_false, Except.ok.injEq] at hlong
          exact hlong.symm
        · simp only [pyTruthy, if_true, pyGtNum, Except.ok.injEq] at hlong
          rw [← hlong]
          decide
      rw [hfalse] at hkind
      simp only [Bool.false_eq_true, if_false] at hkind
      refine ⟨Or.inr hkind, ?_, ?_⟩
      · intro hcontra
        rw [hkind] at hcontra
        exact absurd hcontra (by decide)
      · rintro ⟨d, hdd, _⟩
        simp at hdd
    · by_cases hq : q = 0
      · subst hq
        have hfalse : long = false := by
          simp only [pyTruthy] at hlong
          simp only [show (decide ((0 : Rat) ≠ 0)) = false from by decide] at hlong
          simp only [Bool.false_eq_true, if_false, Except.ok.injEq] at hlong
          exact hlong.symm
        rw [hfalse] at hkind
        simp only [Bool.false_eq_true, if_false] at hkind
        refine ⟨Or.inr hkind, ?_, ?_⟩
        · intro hcontra
          rw [hkind] at hcontra
          exact absurd hcontra (by decide)
        · rintro ⟨d, hdd, hgt⟩
          simp only [Option.some.injEq, JValue.jnum.injEq] at hdd
          rw [← hdd] at hgt
          norm_num at hgt
      · have hdec : long = decide ((500 : Rat) < q) := by
          simp only [pyTruthy] at hlong
          simp only [show (decide (q ≠ 0)) = true from by simp [hq]] at hlong
          simp only [if_true, pyGtNum, Except.ok.injEq] at hlong
          exact hlong.symm
        rw [hdec] at hkind
        by_cases hgt : (500 : Rat) < q
        · simp only [show (decide ((500 : Rat) < q)) = true from by simp [hgt]] at hkind
          simp only [if_true] at hkind
          refine ⟨Or.inl hkind, ?_, ?_⟩
          · intro _
            exact ⟨q, rfl, hgt⟩
          · intro _
            exact hkind
        · simp only [show (decide ((500 : Rat) < q)) = false from by simp [hgt]] at hkind
          simp only [Bool.false_eq_true, if_false] at hkind
          refine ⟨Or.inr hkind, ?_, ?_⟩
          · intro hcontra
            rw [hkind] at hcontra
            exact absurd hcontra (by decide)
          · rintro ⟨d, hdd, hgt2⟩
            simp only [Option.some.injEq, JValue.jnum.injEq] at hdd
            rw [← hdd] at hgt2
            exact absurd hgt2 hgt
    · by_cases hs : s = ""
      · subst hs
        have hfalse : long = false := by
          simp only [pyTruthy] at hlong
          simp only [show (decide (("" : String) ≠ "")) = false from by decide] at hlong
          simp only [Bool.false_eq_true, if_false, Except.ok.injEq] at hlong
          exact hlong.symm
        rw [hfalse] at hkind
        simp only [Bool.false_eq_true, if_false] at hkind
        refine ⟨Or.inr hkind, ?_, ?_⟩
        · intro hcontra
          rw [hkind] at hcontra
          exact absurd hcontra (by decide)
        · rintro ⟨d, hdd, _⟩
          simp at hdd
      · exfalso
        simp [pyTruthy, hs, pyGtNum] at hlong
    · rcases xs with _ | ⟨v0, xs0⟩
      · have hfalse : long = false := by
          simp only [pyTruthy, List.isEmpty_nil, Bool.not_true, Bool.false_eq_true,
            if_false, Except.ok.injEq] at hlong
          exact hlong.symm
        rw [hfalse] at hkind
        simp only [Bool.false_eq_true, if_false] at hkind
        refine ⟨Or.inr hkind, ?_, ?_⟩
        · intro hcontra
          rw [hkind] at hcontra
          exact absurd hcontra (by decide)
        · rintro ⟨d, hdd, _⟩
          simp at hdd
      · exfalso
        simp [pyTruthy, pyGtNum] at hlong
    · rcases kvs with _ | ⟨kv0, kvs0⟩
      · have hfalse : long = false := by
          simp only [pyTruthy, List.isEmpty_nil, Bool.not_true, Bool.false_eq_true,
            if_false, Except.ok.injEq] at hlong
          exact hlong.symm
        rw [hfalse] at hkind
        simp only [Bool.false_eq_true, if_false] at hkind
        refine ⟨Or.inr hkind, ?_, ?_⟩
        · intro hcontra
          rw [hkind] at hcontra
          exact absurd hcontra (by decide)
        · rintro ⟨d, hdd, _⟩
          simp at hdd
      · exfalso
        simp [pyTruthy, pyGtNum] at hlong

theorem getRecoveryAction_tap1 (steps : List AgentStep) (la : Action)
    (hla : lastRecentAction steps = some la) (htap : la.type = ActionType.tap) :
    (getRecoveryAction 0 steps).2 =
      some { type := ActionType.tap,
             params := dictSet la.params ("duration") (.jnum 1000),
             reasoning := .jstr ("Recovery: Long press instead of tap") } := by
  simp only [getRecoveryAction, lastRecentAction] at hla ⊢
  rw [hla]
  simp [htap]

/-- C9.  A tap executes as a long press exactly when its `duration` parameter
is present, numeric, and strictly greater than 500 ms; otherwise it is a
regular tap.  The attempt-1 tap recovery action (duration 1000) always takes
the long-press path. -/
theorem c9_long_press_iff :
    (∀ (w h : Nat) (params : JObj) (r : TapResult), tapRun w h params = .ok r →
       ((r.kind = "long_press" ∨ r.kind = "tap") ∧
        (r.kind = "long_press" ↔
           ∃ d : Rat, lookupJ params ("duration") = some (.jnum d) ∧ 500 < d))) ∧
    (∀ (w h : Nat) (steps : List AgentStep) (la : Action) (qx qy : Rat),
       lastRecentAction steps = some la → la.type = ActionType.tap →
       lookupJ la.params ("x") = some (.jnum qx) →
       lookupJ la.params ("y") = some (.jnum qy) →
       ∃ rec r, (getRecoveryAction 0 steps).2 = some rec ∧
         tapRun w h rec.params = .ok r ∧ r.kind = "long_press") := by
  refine ⟨tapRun_long_press_iff, ?_⟩
  intro w h steps la qx qy hla htap hx hy
  have hrec := getRecoveryAction_tap1 steps la hla htap
  have hx2 : lookupJ (dictSet la.params ("duration") (.jnum 1000)) ("x")
      = some (.jnum qx) := by
    rw [lookupJ_dictSet_other _ _ _ _ (by decide)]
    exact hx
  have hy2 : lookupJ (dictSet la.params ("duration") (.jnum 1000)) ("y")
      = some (.jnum qy) := by
    rw [lookupJ_dictSet_other _ _ _ _ (by decide)]
    exact hy
  have hdur : lookupJ (dictSet la.params ("duration") (.jnum 1000)) ("duration")
      = some (.jnum 1000) := lookupJ_dictSet_self _ _ _
  have hjd : jget (dictSet la.params ("duration") (.jnum 1000)) ("duration") .jnull
      = .jnum 1000 := by simp [jget, hdur]
  refine ⟨_, { x := (toPixels w h qx qy).1, y := (toPixels w h qx qy).2,
               xPercent := qx, yPercent := qy, kind := "long_press",
               duration := .jnum 1000,
               postDelay := jget (dictSet la.params ("duration") (.jnum 1000))
                 ("post_delay") (.jnum 300) },
          hrec, ?_, rfl⟩
  simp only [tapRun, hx2, hy2, hjd, pyFloat, pyTruthy, pyGtNum]
  norm_num

/-- Witness for C9: the concrete 1000 ms tap executes as a long press. -/
theorem c9_long_press_iff_witness : rLongC.kind = "long_press" :=
  ((c9_long_press_iff.1) 1080 2400 pLongC rLongC (by with_unfolding_all rfl)).2.mpr
    ⟨1000, by rfl, by norm_num⟩

/- ## C1: malformed model responses -/

/-- Counterexample to C1 as stated: a decodable response whose action kind is
unrecognized makes `Action.from_dict` raise `ValueError` (modelled as
`Except.error`) instead of producing a synthetic `fail` action. -/
theorem c1_counterexample :
    Action.from_dict (parseActionJson explodeRaw) =
      .error ("explode is not a valid ActionType") := by
  with_unfolding_all rfl

/-- C1 (amended).  Text that does not decode as JSON never raises: it becomes
a synthetic `fail` action carrying the decoder diagnostic.  But a decodable
object with an unrecognized `action` kind raises `ValueError` out of
`Action.from_dict` (the task loop catches it per step and fails the task with
a `Step N failed:` message rather than crashing). -/
theorem c1_amended (s : String) :
    (∀ e, jsonDecode (extractCandidate s) = .error e →
       Action.from_dict (parseActionJson s) =
         .ok { type := ActionType.fail,
               params := [("reason", .jstr ("Failed to parse LLM response: " ++ e))],
               reasoning := .jstr ("") }) ∧
    (∀ d k, jsonDecode (extractCandidate s) = .ok (.jobj d) →
       jget d ("action") (.jstr ("")) = .jstr k →
       ActionType.ofString (k.toLower) = none →
       Action.from_dict (parseActionJson s) =
         .error (k.toLower ++ " is not a valid ActionType")) := by
  constructor
  · intro e he
    simp only [parseActionJson, he]
    with_unfolding_all rfl
  · intro d k hok hget hnone
    simp only [parseActionJson, hok]
    simp only [Action.from_dict, hget, hnone]

/-- Witness for C1 (amended) on concrete undecodable text. -/
theorem c1_amended_witness :
    Action.from_dict (parseActionJson ("gibberish")) =
      .ok { type := ActionType.fail,
            params := [("reason",
              .jstr ("Failed to parse LLM response: " ++ "Expecting value"))],
            reasoning := .jstr ("") } :=
  (c1_amended ("gibberish")).1 ("Expecting value") (by with_unfolding_all rfl)

/- ## C7: fallback-chain resolution terminates -/

theorem unvisited_decrease (db : List Integration) (visited : List String)
    (x : String) (hx : x ∈ db.map Integration.id)
    (hnx : visited.contains x = false) :
    ((db.map Integration.id).dedup.filter
        (fun i => !((x :: visited).contains i))).length <
      ((db.map Integration.id).dedup.filter
        (fun i => !(visited.contains i))).length := by
  have hsplit : (db.map Integration.id).dedup.filter
      (fun i => !((x :: visited).contains i)) =
      ((db.map Integration.id).dedup.filter
        (fun i => !(visited.contains i))).filter (fun i => !(i == x)) := by
    rw [List.filter_filter]
    apply List.filter_congr
    intro a _
    rw [List.contains_cons]
    cases hax : a == x <;> cases hav : visited.contains a <;> rfl
  rw [hsplit]
  apply List.length_filter_lt_length_iff_exists.mpr
  refine ⟨x, ?_, ?_⟩
  · rw [List.mem_filter]
    exact ⟨List.mem_dedup.mpr hx, by rw [hnx]; rfl⟩
  · simp

theorem buildConfig_no_key (db : List Integration)
    (hkeys : ∀ i ∈ db, i.provider.apiKeyEncrypted = none ∨
       i.provider.apiKeyEncrypted = some ("")) :
    ∀ (fuel : Nat) (visited : List String) (integ : Integration), integ ∈ db →
      ((db.map Integration.id).dedup.filter
          (fun i => !(visited.contains i))).length < fuel →
      buildConfigWithFallback db fuel visited true integ = some none := by
  intro fuel
  induction fuel with
  | zero =>
    intro visited integ _ hcount
    omega
  | succ n ih =>
    intro visited integ hmem hcount
    simp only [buildConfigWithFallback]
    cases hv : visited.contains integ.id
    · simp only [Bool.false_eq_true, if_false]
      have hdec : decryptApiKey integ.provider.apiKeyEncrypted =
          .error ("No API key configured for provider") := by
        rcases hkeys integ hmem with hk | hk <;> rw [hk] <;> rfl
      rw [hdec]
      dsimp only
      rcases hfb : integ.fallbackIntegrationId with _ | fid
      · rfl
      · dsimp only
        by_cases hfid : fid = ""
        · subst hfid
          simp
        · rw [if_pos (by simp [hfid])]
          rcases hlook : getIntegrationById db fid with _ | fb
          · rfl
          · have hfbmem : fb ∈ db := List.mem_of_find?_eq_some hlook
            apply ih (integ.id :: visited) fb hfbmem
            have hd := unvisited_decrease db visited integ.id
              (List.mem_map_of_mem Integration.id hmem) hv
            omega
    · simp only [if_true]

/-- C7.  Over any database of integrations in which no row has a usable
credential — including one whose `fallback_integration_id` links form a cycle
— `_build_config_with_fallback` terminates (the fuel bound is never hit) and
resolves to the Python `None` outcome, the not-found result. -/
theorem c7_fallback_cycle (db : List Integration) (integ : Integration)
    (hmem : integ ∈ db)
    (hkeys : ∀ i ∈ db, i.provider.apiKeyEncrypted = none ∨
       i.provider.apiKeyEncrypted = some ("")) :
    resolveIntegration db integ = some none := by
  apply buildConfig_no_key db hkeys _ [] integ hmem
  have h1 : (db.map Integration.id).dedup.filter
      (fun i => !(([] : List String).contains i)) = (db.map Integration.id).dedup :=
    List.filter_eq_self.mpr (fun a _ => rfl)
  rw [h1]
  calc (db.map Integration.id).dedup.length ≤ (db.map Integration.id).length :=
        (List.dedup_sublist _).length_le
  _ = db.length := List.length_map _ _
  _ < db.length + 1 := by omega

/-- Witness for C7: the concrete three-node cycle A→B→C→A with no stored
credentials resolves to not-found instead of looping. -/
theorem c7_fallback_cycle_witness :
    resolveIntegration cycleDb (integNoKey ("A") (some ("B"))) = some none :=
  c7_fallback_cycle cycleDb (integNoKey ("A") (some ("B")))
    (by simp [cycleDb])
    (by
      intro i hi
      simp only [cycleDb, List.mem_cons, List.mem_singleton] at hi
      rcases hi with h | h | h | h <;> first
      | (subst h; exact Or.inl rfl)
      | exact absurd h (List.not_mem_nil i))

/- ## Loop lemmas and C6: max-steps exhaustion -/

theorem checkStuckState_true (cfg : AgentConfig) (w : List String) (a : Nat)
    (fp : String) (h : (checkStuckState cfg w a fp).1 = true) :
    (checkStuckState cfg w a fp).2.2 = a ∧ a < cfg.maxRecoveryAttempts := by
  simp only [checkStuckState] at h ⊢
  split_ifs at h ⊢ with h1 h2 h3 h4 <;> simp_all

theorem planner_some (a : Nat) (steps : List AgentStep) (h : a + 1 ≤ 2) :
    ∃ act, (getRecoveryAction a steps).2 = some act := by
  have h1 : a = 0 ∨ a = 1 := by omega
  simp only [getRecoveryAction, defaultRecovery]
  rcases ((pyTakeLast 3 steps).map AgentStep.action).getLast? with _ | la
  · rcases h1 with h | h <;> subst h <;> simp
  · by_cases htap : la.type = ActionType.tap
    · rcases h1 with h | h <;> subst h <;> simp [htap]
    · by_cases hsw : la.type = ActionType.swipe
      · simp [htap, hsw]
      · rcases h1 with h | h <;> subst h <;> simp [htap, hsw]

theorem loopStep_ok (cfg : AgentConfig) (env : Nat -> StepEnv)
    (hmax : cfg.maxRecoveryAttempts ≤ 2) (s : LoopState)
    (hllm : ∃ raw act, (env s.stepNumber).llm = .ok raw ∧
       Action.from_dict (parseActionJson raw) = .ok act ∧
       act.type ≠ ActionType.done ∧ act.type ≠ ActionType.fail) :
    ∃ s2, loopStep cfg env s = .ok s2 ∧ s2.steps.length = s.steps.length + 1 ∧
      s2.stepNumber = s.stepNumber + 1 := by
  obtain ⟨raw, act, hraw, hact, hdone, hfail⟩ := hllm
  simp only [loopStep]
  cases hstuck : (checkStuckState cfg s.window s.attempts
      (env s.stepNumber).fingerprint).1
  · rw [if_neg (by simp)]
    rw [hraw]
    dsimp only
    rw [hact]
    dsimp only
    rw [if_neg hdone, if_neg hfail]
    refine ⟨_, rfl, ?_, rfl⟩
    simp
  · rw [if_pos rfl]
    obtain ⟨ha2, hlt⟩ := checkStuckState_true cfg s.window s.attempts
      (env s.stepNumber).fingerprint hstuck
    rw [ha2]
    obtain ⟨act2, hact2⟩ := planner_some s.attempts s.steps (by omega)
    rw [hact2]
    refine ⟨_, rfl, ?_, rfl⟩
    simp

theorem runFrom_all_steps (cfg : AgentConfig) (env : Nat -> StepEnv)
    (hmax : cfg.maxRecoveryAttempts ≤ 2)
    (H : ∀ n, ∃ raw act, (env n).llm = .ok raw ∧
       Action.from_dict (parseActionJson raw) = .ok act ∧
       act.type ≠ ActionType.done ∧ act.type ≠ ActionType.fail) :
    ∀ (fuel : Nat) (s : LoopState),
      (runFrom cfg env fuel s).success = false ∧
      (runFrom cfg env fuel s).error = some (.jstr (timeoutMsg cfg.maxSteps)) ∧
      (runFrom cfg env fuel s).steps.length = s.steps.length + fuel := by
  intro fuel
  induction fuel with
  | zero =>
    intro s
    exact ⟨rfl, rfl, rfl⟩
  | succ n ih =>
    intro s
    obtain ⟨s2, hs2, hlen, _⟩ := loopStep_ok cfg env hmax s (H s.stepNumber)
    simp only [runFrom, hs2]
    obtain ⟨ha, hb, hc⟩ := ih s2
    exact ⟨ha, hb, by rw [hc, hlen]; omega⟩

/-- C6.  When no consulted model response parses to `done` or `fail` and the
LLM call never raises, `execute_task` performs exactly `max_steps` steps,
records one `AgentStep` per step, and returns failure with the
`Task did not complete within N steps` message.  (The default recovery budget
`max_recovery_attempts ≤ 2` is assumed: it makes the planner always produce a
recovery action, so the stuck-failure exit is unreachable.) -/
theorem c6_max_steps (cfg : AgentConfig) (env : Nat -> StepEnv)
    (hmax : cfg.maxRecoveryAttempts ≤ 2)
    (H : ∀ n, ∃ raw act, (env n).llm = .ok raw ∧
       Action.from_dict (parseActionJson raw) = .ok act ∧
       act.type ≠ ActionType.done ∧ act.type ≠ ActionType.fail) :
    (executeTask cfg env).steps.length = cfg.maxSteps ∧
    (executeTask cfg env).success = false ∧
    (executeTask cfg env).error = some (.jstr (timeoutMsg cfg.maxSteps)) := by
  obtain ⟨ha, hb, hc⟩ := runFrom_all_steps cfg env hmax H cfg.maxSteps initialState
  exact ⟨by rw [executeTask, hc]; simp [initialState], ha, hb⟩

/-- Witness for C6: two steps of the constant `wait` environment. -/
theorem c6_max_steps_witness :
    (executeTask { maxSteps := 2 } constEnvA).steps.length = 2 ∧
    (executeTask { maxSteps := 2 } constEnvA).success = false ∧
    (executeTask { maxSteps := 2 } constEnvA).error =
      some (.jstr (timeoutMsg 2)) :=
  c6_max_steps { maxSteps := 2 } constEnvA (by decide)
    (fun _ => ⟨waitRaw, waitAction, rfl, by with_unfolding_all rfl,
      by decide, by decide⟩)

/- ## C5: the recovery budget resets exactly on window diversity -/

theorem loopStep_ok_shape (cfg : AgentConfig) (env : Nat -> StepEnv)
    (s s2 : LoopState) (hstep : loopStep cfg env s = .ok s2) :
    s2.window = (checkStuckState cfg s.window s.attempts
        (env s.stepNumber).fingerprint).2.1 ∧
    (s2.attempts = (checkStuckState cfg s.window s.attempts
        (env s.stepNumber).fingerprint).2.2 ∨
     (s2.attempts = (checkStuckState cfg s.window s.attempts
        (env s.stepNumber).fingerprint).2.2 + 1 ∧
      (checkStuckState cfg s.window s.attempts
        (env s.stepNumber).fingerprint).1 = true)) := by
  simp only [loopStep] at hstep
  by_cases hstuck : (checkStuckState cfg s.window s.attempts
      (env s.stepNumber).fingerprint).1 = true
  · rw [if_pos hstuck] at hstep
    rcases hplan : (getRecoveryAction (checkStuckState cfg s.window s.attempts
        (env s.stepNumber).fingerprint).2.2 s.steps).2 with _ | act
    · rw [hplan] at hstep
      cases hstep
    · rw [hplan] at hstep
      dsimp only at hstep
      cases hstep
      refine ⟨rfl, Or.inr ⟨?_, hstuck⟩⟩
      exact getRecoveryAction_fst _ _
  · rw [if_neg hstuck] at hstep
    repeat' split at hstep
    all_goals cases hstep
    exact ⟨rfl, Or.inl rfl⟩

theorem loopStep_inv (cfg : AgentConfig) (env : Nat -> StepEnv)
    (h1 : 1 ≤ cfg.stuckDetectionThreshold) (s s2 : LoopState)
    (hInv : (1 < distinctCount s.window → s.attempts = 0) ∧
            (s.attempts ≠ 0 → s.window.length = cfg.stuckDetectionThreshold))
    (hstep : loopStep cfg env s = .ok s2) :
    (1 < distinctCount s2.window → s2.attempts = 0) ∧
    (s2.attempts ≠ 0 → s2.window.length = cfg.stuckDetectionThreshold) := by
  obtain ⟨hcw, hcases⟩ := checkStuckState_cases cfg s.window s.attempts
    (env s.stepNumber).fingerprint h1
  obtain ⟨hw, hatt⟩ := loopStep_ok_shape cfg env s s2 hstep
  rw [hcw] at hw
  rcases hcases with ⟨hlt, ha2, hflag, hgrow⟩ | ⟨hfull, hone, ha2, _⟩ |
    ⟨hfull, hmany, ha2, hflag⟩
  · have ha0 : s.attempts = 0 := by
      by_contra hne
      have := hInv.2 hne
      omega
    have hs2a : s2.attempts = 0 := by
      rcases hatt with h | ⟨_, htrue⟩
      · rw [h, ha2, ha0]
      · rw [hflag] at htrue
        cases htrue
    exact ⟨fun _ => hs2a, fun hx => absurd hs2a hx⟩
  · refine ⟨fun hx => ?_, fun _ => ?_⟩
    · rw [hw] at hx
      omega
    · rw [hw]
      exact hfull
  · have hs2a : s2.attempts = 0 := by
      rcases hatt with h | ⟨_, htrue⟩
      · rw [h, ha2]
      · rw [hflag] at htrue
        cases htrue
    exact ⟨fun _ => hs2a, fun hx => absurd hs2a hx⟩

theorem iterState_inv (cfg : AgentConfig) (env : Nat -> StepEnv)
    (h1 : 1 ≤ cfg.stuckDetectionThreshold) :
    ∀ (n : Nat) (s : LoopState), iterState cfg env n = .ok s →
      (1 < distinctCount s.window → s.attempts = 0) ∧
      (s.attempts ≠ 0 → s.window.length = cfg.stuckDetectionThreshold) := by
  intro n
  induction n with
  | zero =>
    intro s hs
    simp only [iterState] at hs
    cases hs
    refine ⟨fun hx => ?_, fun hx => ?_⟩
    · simp [initialState, distinctCount] at hx
    · exact absurd rfl hx
  | succ n ih =>
    intro s hs
    simp only [iterState] at hs
    rcases hprev : iterState cfg env n with r | sp
    · rw [hprev] at hs
      cases hs
    · rw [hprev] at hs
      dsimp only at hs
      exact loopStep_inv cfg env h1 sp s (ih sp hprev) hs

/-- C5.  In every reachable loop state whose fingerprint window holds more
than one distinct fingerprint, the recovery counter is 0; one observation can
only keep the counter or zero it on a diverse full window (never decrease it
otherwise), and the planner always increments it — so the diversity reset is
the only replenishment. -/
theorem c5_reset_invariant (cfg : AgentConfig) (env : Nat -> StepEnv)
    (h1 : 1 ≤ cfg.stuckDetectionThreshold) :
    (∀ n s, iterState cfg env n = .ok s →
       1 < distinctCount s.window → s.attempts = 0) ∧
    (∀ w a fp, (checkStuckState cfg w a fp).2.2 = a ∨
       ((checkStuckState cfg w a fp).2.2 = 0 ∧
        1 < distinctCount ((checkStuckState cfg w a fp).2.1))) ∧
    (∀ a steps, (getRecoveryAction a steps).1 = a + 1) := by
  refine ⟨fun n s hs => (iterState_inv cfg env h1 n s hs).1, ?_, getRecoveryAction_fst⟩
  intro w a fp
  rcases (checkStuckState_cases cfg w a fp h1).2 with
    ⟨_, h, _, _⟩ | ⟨_, _, h, _⟩ | ⟨_, hd, h, _⟩
  · exact Or.inl h
  · exact Or.inl h
  · refine Or.inr ⟨h, ?_⟩
    rw [checkStuckState_window]
    exact hd

/-- Witness for C5: the planner increments the counter at a concrete input. -/
theorem c5_reset_invariant_witness : (getRecoveryAction 0 []).1 = 0 + 1 :=
  (c5_reset_invariant {} constEnvA (by decide)).2.2 0 []

/- ## C2: the stuck-failure exit -/

/-- Counterexample to C2 as stated: with the default configuration, a screen
that never changes and a model that always answers `wait` reaches a uniform
full window with the recovery budget exhausted (state before step 5), yet
`execute_task` does not terminate with the stuck message — the detector
reports not-stuck once the budget is spent and the loop keeps consulting the
LLM until the max-steps exit. -/
theorem c2_counterexample :
    stateWindowAttempts (iterState { maxSteps := 6 } constEnvA 4) =
      some (["A", "A", "A"], ({} : AgentConfig).maxRecoveryAttempts) ∧
    (executeTask { maxSteps := 6 } constEnvA).success = false ∧
    (executeTask { maxSteps := 6 } constEnvA).error =
      some (.jstr (timeoutMsg 6)) := by
  refine ⟨?_, ?_, ?_⟩ <;> with_unfolding_all rfl

/-- C2 (amended).  The stuck-failure exit exists but fires only when the
detector reports stuck while the planner has no strategy left (attempt
number above its hard-coded two-step ladder with no swipe in history) —
reachable only with `max_recovery_attempts ≥ 3`.  When it fires, the task
terminates unsuccessfully with the message
`Task stuck after N steps. No recovery strategy available.` where `N` is the
current step number.  With the default budget of 2 this exit is unreachable:
a uniform window with the budget exhausted makes `_check_stuck_state` report
not-stuck and the loop continues with the LLM. -/
theorem c2_amended (cfg : AgentConfig) (env : Nat -> StepEnv) (fuel : Nat)
    (s : LoopState) (hfuel : 1 ≤ fuel)
    (hstuck : (checkStuckState cfg s.window s.attempts
        (env s.stepNumber).fingerprint).1 = true)
    (hplan : (getRecoveryAction (checkStuckState cfg s.window s.attempts
        (env s.stepNumber).fingerprint).2.2 s.steps).2 = none) :
    runFrom cfg env fuel s =
      { success := false, result := none,
        error := some (.jstr (stuckFailMsg s.stepNumber)),
        steps := s.steps, totalTokens := s.totalTokens } := by
  obtain ⟨f, rfl⟩ : ∃ f, fuel = f + 1 := ⟨fuel - 1, by omega⟩
  simp only [runFrom, loopStep, hstuck, if_pos, hplan]

/-- Witness for C2 (amended): with a three-attempt budget the planner runs
out on attempt 3 and the loop fails with the stuck message. -/
theorem c2_amended_witness :
    runFrom { maxRecoveryAttempts := 3 } constEnvA 1
        { stepNumber := 1, window := ["A", "A"], attempts := 2, steps := [],
          totalTokens := 0 } =
      { success := false, result := none,
        error := some (.jstr (stuckFailMsg 1)), steps := [], totalTokens := 0 } :=
  c2_amended { maxRecoveryAttempts := 3 } constEnvA 1
    { stepNumber := 1, window := ["A", "A"], attempts := 2, steps := [],
      totalTokens := 0 }
    (by omega) (by with_unfolding_all rfl) (by with_unfolding_all rfl)

end MobileDroid
